import Mathlib

/-!
Verification of the WebSocket JSON-RPC server in
`src/services/json_rpc/ws_server.cpp` (classes `WsSession` and `WsListener`).

The asynchronous Boost.Beast handlers are embedded shallowly: each completion
handler (`WsSession::on_accept`, `WsSession::on_read`, `WsSession::on_write`,
the close-completion lambda, `WsListener::on_accept`, and the `WsListener`
constructor) becomes a pure function from its completion inputs and the current
buffer contents to the new buffer contents and the list of observable actions
it performs (diagnostic-sink reports, stdout lines, and the asynchronous
operations it issues).  The session's read/process/write loop is then a labelled
step relation over these handlers, and the temporal claims are invariants of
its reachable states.

The JSON parser is an external collaborator (spec section 6), so the handlers
take the `parse` function as a parameter.  `json_rpc::JsonRpc::gen_err` and
`json_rpc::JsonRpc::verify` live in `json_rpc.h`, which is not part of the
provided sources; they are modelled from the spec (section 4.3) below.
-/

/-- JSON values, sufficient for the JSON-RPC envelopes exchanged here
(numbers restricted to integers, which covers every code and id used). -/
inductive Json where
  | null : Json
  | bool (b : Bool) : Json
  | num (n : Int) : Json
  | str (s : String) : Json
  | arr (xs : List Json) : Json
  | obj (fields : List (String × Json)) : Json

/-- Field lookup in a JSON object; `none` on non-objects or absent keys. -/
def Json.lookup : Json → String → Option Json
  | Json.obj fields, k => go fields k
  | _, _ => none
where
  go : List (String × Json) → String → Option Json
    | [], _ => none
    | (k₂, v) :: rest, k => if k₂ = k then some v else go rest k

mutual

/-- Serialization of a JSON value, mirroring nlohmann `json::dump()`
(compact form, no spaces).  String escaping is omitted: no payload built by
this program contains characters needing escapes. -/
def Json.dump : Json → String
  | Json.null => "null"
  | Json.bool true => "true"
  | Json.bool false => "false"
  | Json.num n => toString n
  | Json.str s => "\"" ++ s ++ "\""
  | Json.arr xs => "[" ++ Json.dumpList xs ++ "]"
  | Json.obj fields => "\x7b" ++ Json.dumpFields fields ++ "\x7d"

/-- Comma-separated dump of array elements. -/
def Json.dumpList : List Json → String
  | [] => ""
  | [x] => Json.dump x
  | x :: y :: rest => Json.dump x ++ "," ++ Json.dumpList (y :: rest)

/-- Comma-separated dump of object fields. -/
def Json.dumpFields : List (String × Json) → String
  | [] => ""
  | [(k, v)] => "\"" ++ k ++ "\":" ++ Json.dump v
  | (k, v) :: f :: rest =>
      "\"" ++ k ++ "\":" ++ Json.dump v ++ "," ++ Json.dumpFields (f :: rest)

end

namespace JsonRpc

/-- Modelled from the spec: `json_rpc::JsonRpc::gen_err` (declared in
`json_rpc.h`, not under the provided sources) builds a complete JSON-RPC
error response envelope: jsonrpc "2.0", an error object holding the code and
a message, and a null id.  The message text is unspecified by the spec; the
claims only inspect the code. -/
def gen_err (code : Int) : Json :=
  Json.obj [("jsonrpc", Json.str "2.0"),
            ("error", Json.obj [("code", Json.num code),
                                ("message", Json.str "error")]),
            ("id", Json.null)]

/-- Modelled from the spec: `json_rpc::JsonRpc::verify` (declared in
`json_rpc.h`, not under the provided sources) checks "presence/shape of
required fields per the JSON-RPC 2.0 convention (method name present and of
correct type; params, if present, is an array or object; id, if present, is
a string, number, or null)".  The C++ method throws on violation and the
caller catches the exception; here it returns `false` on violation. -/
def verify (j : Json) : Bool :=
  (match j.lookup "method" with
    | some (Json.str _) => true
    | _ => false)
  && (match j.lookup "params" with
    | none => true
    | some (Json.arr _) => true
    | some (Json.obj _) => true
    | _ => false)
  && (match j.lookup "id" with
    | none => true
    | some (Json.str _) => true
    | some (Json.num _) => true
    | some Json.null => true
    | _ => false)

end JsonRpc

/-- Error code of a JSON-RPC response envelope: the `error.code` field. -/
def errCode (j : Json) : Option Int :=
  match j.lookup "error" with
  | some e =>
    match e.lookup "code" with
    | some (Json.num n) => some n
    | _ => none
  | none => none

/-- Completion status codes (`beast::error_code`), abstracted: `ok` is
success, `wsClosed` is `websocket::error::closed` (peer-initiated close), and
`err n` is any other error, `n` identifying the platform error (for example
`err 9` for an invalid listening-socket descriptor, `err 110` for a
timeout). -/
inductive ECode where
  | ok : ECode
  | wsClosed : ECode
  | err (n : Nat) : ECode
deriving DecidableEq, Repr

/-- Observable actions a handler performs, in program order: `report` is the
diagnostic sink (`fail`, writing to `std::cerr`); `logLine` is a `std::cout`
line; `textMode` is `ws_.text(true)`; the `async*` constructors are the
asynchronous operations issued (`async_read`, `async_write` with the staged
payload, `async_close` with the close code, `async_accept`);  `spawnSession`
is the listener constructing and running a new `WsSession`. -/
inductive Act where
  | report (what : String) : Act
  | logLine (s : String) : Act
  | textMode : Act
  | asyncRead : Act
  | asyncWrite (payload : String) : Act
  | asyncClose (code : Nat) : Act
  | asyncAccept : Act
  | spawnSession : Act
deriving DecidableEq, Repr

/-- `WsSession::on_accept` (websocket-handshake completion): on error, report
and stop; on success, `do_read()` issues one `async_read`. -/
def wsSessionOnAccept (ec : ECode) : List Act :=
  if ec ≠ ECode.ok then [Act.report "accept"]
  else [Act.asyncRead]

/-- `WsSession::on_read` faithfully following the source (the transferred
byte count is discarded by `boost::ignore_unused`): return silently on
`websocket::error::closed`; call `fail` on any other error — the source has
no `return` here, so control falls through; close with code 1000 on a
non-text frame; otherwise snapshot the buffer, parse it, set text mode,
clear the buffer, and stage exactly one reply (parse failure and
verification failure reply with `gen_err (-1)`, success with
`gen_err 999`), which `send_buff` writes.  Result: new buffer contents and
the actions performed. -/
def wsOnRead (parse : String → Option Json) (buf : String)
    (ec : ECode) (gotText : Bool) : String × List Act :=
  if ec = ECode.wsClosed then (buf, [])
  else
    let pre : List Act := if ec ≠ ECode.ok then [Act.report "read"] else []
    if gotText = false then
      (buf, pre ++ [Act.asyncClose 1000])
    else
      let rpc_data := buf
      match parse rpc_data with
      | none =>
        let ws_rpl := (JsonRpc.gen_err (-1)).dump
        (ws_rpl, pre ++ [Act.textMode, Act.asyncWrite ws_rpl])
      | some j =>
        if JsonRpc.verify j then
          let ws_rpl := (JsonRpc.gen_err 999).dump
          (ws_rpl, pre ++ [Act.textMode, Act.logLine "verify..",
                           Act.asyncWrite ws_rpl])
        else
          let ws_rpl := (JsonRpc.gen_err (-1)).dump
          (ws_rpl, pre ++ [Act.textMode, Act.logLine "verify..",
                           Act.logLine "ERR", Act.asyncWrite ws_rpl])

/-- `WsSession::on_write`: on error, report and stop; on success, clear the
buffer (`buffer_.consume(buffer_.size())`) and `do_read()`. -/
def wsOnWrite (buf : String) (ec : ECode) : String × List Act :=
  if ec ≠ ECode.ok then (buf, [Act.report "write"])
  else ("", [Act.asyncRead])

/-- The completion handler passed to `ws_.async_close` in
`WsSession::on_read`: the lambda has an empty body and discards its error
code. -/
def wsOnCloseHandler (_ec : ECode) : List Act := []

/-- `WsListener::on_accept`: on error, report; on success, spawn and run a
new session; in either case `do_accept()` re-arms the next `async_accept`. -/
def wsListenerOnAccept (ec : ECode) : List Act :=
  (if ec ≠ ECode.ok then [Act.report "accept"] else [Act.spawnSession])
    ++ [Act.asyncAccept]

/-- The `WsListener` constructor: open, set reuse-address, bind, listen;
each step reports its own failure ("open", "set_option", "bind", "listen")
and returns, leaving the listener inert. -/
def wsListenerInit (openEc setOptionEc bindEc listenEc : ECode) : List Act :=
  if openEc ≠ ECode.ok then [Act.report "open"]
  else if setOptionEc ≠ ECode.ok then [Act.report "set_option"]
  else if bindEc ≠ ECode.ok then [Act.report "bind"]
  else if listenEc ≠ ECode.ok then [Act.report "listen"]
  else []

/-- Asynchronous operations that can be in flight on one session: the
websocket handshake (`async_accept` on the stream), `async_read`,
`async_write` with its payload, and `async_close` with its close code. -/
inductive AsyncOp where
  | hs : AsyncOp
  | read : AsyncOp
  | write (payload : String) : AsyncOp
  | close (code : Nat) : AsyncOp
deriving DecidableEq, Repr

/-- The asynchronous operations issued by a list of actions, in order. -/
def issuedOps : List Act → List AsyncOp
  | [] => []
  | Act.asyncRead :: rest => AsyncOp.read :: issuedOps rest
  | Act.asyncWrite p :: rest => AsyncOp.write p :: issuedOps rest
  | Act.asyncClose c :: rest => AsyncOp.close c :: issuedOps rest
  | _ :: rest => issuedOps rest

/-- State of one `WsSession`: the contents of its single `flat_buffer`
`buffer_` (used both for the received frame and for the staged reply) and
the asynchronous operations currently in flight on it. -/
structure Sess where
  buffer : String
  inflight : List AsyncOp
deriving DecidableEq, Repr

/-- Session state after `run()`/`on_run()`: the buffer is default-empty and
the websocket handshake has been issued. -/
def sessInit : Sess := ⟨"", [AsyncOp.hs]⟩

/-- One completion step of the session's event loop: an operation in flight
completes (with a status code chosen by the environment, and for reads a
frame kind chosen by the environment), the corresponding source handler
runs, and the operations it issues become in flight.  The JSON parser
`parse` is the external collaborator. -/
inductive SessStep (parse : String → Option Json) : Sess → Sess → Prop where
  | hsDone (s : Sess) (ec : ECode) (h : AsyncOp.hs ∈ s.inflight) :
      SessStep parse s
        ⟨s.buffer, s.inflight.erase AsyncOp.hs ++ issuedOps (wsSessionOnAccept ec)⟩
  | readDone (s : Sess) (ec : ECode) (gotText : Bool)
      (h : AsyncOp.read ∈ s.inflight) :
      SessStep parse s
        ⟨(wsOnRead parse s.buffer ec gotText).1,
         s.inflight.erase AsyncOp.read ++ issuedOps (wsOnRead parse s.buffer ec gotText).2⟩
  | writeDone (s : Sess) (p : String) (ec : ECode)
      (h : AsyncOp.write p ∈ s.inflight) :
      SessStep parse s
        ⟨(wsOnWrite s.buffer ec).1,
         s.inflight.erase (AsyncOp.write p) ++ issuedOps (wsOnWrite s.buffer ec).2⟩
  | closeDone (s : Sess) (c : Nat) (ec : ECode)
      (h : AsyncOp.close c ∈ s.inflight) :
      SessStep parse s
        ⟨s.buffer, s.inflight.erase (AsyncOp.close c) ++ issuedOps (wsOnCloseHandler ec)⟩

/-- A session state reachable from the post-`run()` initial state. -/
def SessReachable (parse : String → Option Json) (s : Sess) : Prop :=
  Relation.ReflTransGen (SessStep parse) sessInit s

/-- An error is handled when the actions contain a diagnostic-sink report or
a protocol-level response (a staged reply write or a close frame). -/
def sinkOrResponse (acts : List Act) : Prop :=
  (∃ w, Act.report w ∈ acts) ∨ (∃ p, Act.asyncWrite p ∈ acts) ∨
    (∃ c, Act.asyncClose c ∈ acts)

theorem issuedOps_append (xs ys : List Act) :
    issuedOps (xs ++ ys) = issuedOps xs ++ issuedOps ys := by
  induction xs with
  | nil => rfl
  | cons a rest ih => cases a <;> simp [issuedOps, ih]

theorem eq_singleton_of_len_le_one {α : Type} {l : List α} {a : α}
    (ha : a ∈ l) (hl : l.length ≤ 1) : l = [a] := by
  match l with
  | [] => cases ha
  | [b] =>
      simp only [List.mem_singleton] at ha
      simp [ha]
  | b :: c :: rest => simp at hl

theorem erase_singleton_self (a : AsyncOp) : [a].erase a = [] := by
  simp

theorem wsSessionOnAccept_issued (ec : ECode) :
    issuedOps (wsSessionOnAccept ec) = [] ∨
    issuedOps (wsSessionOnAccept ec) = [AsyncOp.read] := by
  by_cases h : ec = ECode.ok <;> simp [wsSessionOnAccept, h, issuedOps]

theorem wsOnRead_issued (parse : String → Option Json) (buf : String)
    (ec : ECode) (gotText : Bool) :
    issuedOps (wsOnRead parse buf ec gotText).2 = [] ∨
    issuedOps (wsOnRead parse buf ec gotText).2 = [AsyncOp.close 1000] ∨
    issuedOps (wsOnRead parse buf ec gotText).2 =
      [AsyncOp.write (wsOnRead parse buf ec gotText).1] := by
  by_cases hc : ec = ECode.wsClosed
  · simp [wsOnRead, hc, issuedOps]
  · by_cases ho : ec = ECode.ok <;> cases gotText <;> cases hp : parse buf <;>
      simp [wsOnRead, hc, ho, hp, issuedOps, issuedOps_append] <;>
      cases hv : JsonRpc.verify _ <;> simp [hv, issuedOps]

theorem wsOnWrite_issued (buf : String) (ec : ECode) :
    issuedOps (wsOnWrite buf ec).2 = [] ∨
    wsOnWrite buf ec = ("", [Act.asyncRead]) := by
  by_cases h : ec = ECode.ok <;> simp [wsOnWrite, h, issuedOps]

/-- Invariant of reachable session states: at most one asynchronous
operation is in flight; the buffer is empty whenever a read (or the
handshake) is in flight; and whenever a write is in flight the buffer holds
exactly the staged payload. -/
def SessInv (s : Sess) : Prop :=
  s.inflight.length ≤ 1 ∧
  ((AsyncOp.read ∈ s.inflight ∨ AsyncOp.hs ∈ s.inflight) → s.buffer = "") ∧
  (∀ p, AsyncOp.write p ∈ s.inflight → s.buffer = p)

theorem sessInv_reachable (parse : String → Option Json) (s : Sess)
    (h : SessReachable parse s) : SessInv s := by
  induction h with
  | refl =>
      refine ⟨by simp [sessInit], fun _ => rfl, fun p hp => ?_⟩
      simp [sessInit] at hp
  | @tail b c hab hstep ih =>
      obtain ⟨ihlen, ihread, ihwrite⟩ := ih
      cases hstep with
      | hsDone ec hmem =>
          have hb : b.inflight = [AsyncOp.hs] := eq_singleton_of_len_le_one hmem ihlen
          have hbuf : b.buffer = "" := ihread (Or.inr (by simp [hb]))
          rcases wsSessionOnAccept_issued ec with hi | hi <;>
            simp [SessInv, hb, hbuf, hi, erase_singleton_self]
      | readDone ec gotText hmem =>
          have hb : b.inflight = [AsyncOp.read] := eq_singleton_of_len_le_one hmem ihlen
          rcases wsOnRead_issued parse b.buffer ec gotText with hi | hi | hi <;>
            simp [SessInv, hb, hi, erase_singleton_self]
      | writeDone p ec hmem =>
          have hb : b.inflight = [AsyncOp.write p] := eq_singleton_of_len_le_one hmem ihlen
          rcases wsOnWrite_issued b.buffer ec with hi | hi <;>
            simp [SessInv, hb, hi, erase_singleton_self, issuedOps]
      | closeDone cc ec hmem =>
          have hb : b.inflight = [AsyncOp.close cc] := eq_singleton_of_len_le_one hmem ihlen
          simp [SessInv, hb, erase_singleton_self, wsOnCloseHandler, issuedOps]

/-- Claim C1 (code behavior at the failing input): at a read completion whose
error code is neither success nor `websocket::error::closed` (here `err 110`,
a timeout) on a text frame, `WsSession::on_read` logs the error to the sink
but — the `fail` call not being preceded by `return`, unlike every other
handler in the file — falls through and keeps processing: it parses the stale
buffer contents, stages a reply, and issues an asynchronous write, instead of
transitioning to Closed without a reply. -/
theorem C1_read_error_still_replies :
    (wsOnRead (fun _ => none) "stale" (ECode.err 110) true).2 =
      [Act.report "read", Act.textMode,
       Act.asyncWrite (JsonRpc.gen_err (-1)).dump] ∧
    issuedOps (wsOnRead (fun _ => none) "stale" (ECode.err 110) true).2 =
      [AsyncOp.write (JsonRpc.gen_err (-1)).dump] := by
  constructor <;> rfl

/-- Claim C2 counterexample: the completion handler that
`WsSession::on_read` passes to `ws_.async_close` is an empty lambda; when
the close operation itself fails (here `err 107`), the error is discarded
with neither a diagnostic-sink report nor any protocol-level response. -/
theorem C2_close_error_dropped :
    ¬ sinkOrResponse (wsOnCloseHandler (ECode.err 107)) := by
  simp [sinkOrResponse, wsOnCloseHandler]

/-- Claim C2 as amended: every error path of the Listener and the Session
other than the close-frame completion (and peer-initiated close, which the
spec classifies as expected end-of-session rather than an error) either
reports to the diagnostic sink or answers with a protocol-level response:
handshake errors, read errors, parse failures, verification failures, write
errors, accept errors, and each of the four bind-phase errors. -/
theorem C2_errors_reported_or_answered :
    (∀ ec : ECode, ec ≠ ECode.ok → sinkOrResponse (wsSessionOnAccept ec)) ∧
    (∀ (parse : String → Option Json) (buf : String) (ec : ECode)
        (gotText : Bool), ec ≠ ECode.ok → ec ≠ ECode.wsClosed →
        sinkOrResponse (wsOnRead parse buf ec gotText).2) ∧
    (∀ (parse : String → Option Json) (buf : String), parse buf = none →
        sinkOrResponse (wsOnRead parse buf ECode.ok true).2) ∧
    (∀ (parse : String → Option Json) (buf : String) (j : Json),
        parse buf = some j → JsonRpc.verify j = false →
        sinkOrResponse (wsOnRead parse buf ECode.ok true).2) ∧
    (∀ (buf : String) (ec : ECode), ec ≠ ECode.ok →
        sinkOrResponse (wsOnWrite buf ec).2) ∧
    (∀ ec : ECode, ec ≠ ECode.ok → sinkOrResponse (wsListenerOnAccept ec)) ∧
    (∀ a b c d : ECode,
        (a ≠ ECode.ok ∨ b ≠ ECode.ok ∨ c ≠ ECode.ok ∨ d ≠ ECode.ok) →
        sinkOrResponse (wsListenerInit a b c d)) := by
  refine ⟨?_, ?_, ?_, ?_, ?_, ?_, ?_⟩
  · intro ec h
    exact Or.inl ⟨"accept", by simp [wsSessionOnAccept, h]⟩
  · intro parse buf ec gotText h hcl
    cases gotText
    · exact Or.inl ⟨"read", by simp [wsOnRead, h, hcl]⟩
    · cases hp : parse buf with
      | none => exact Or.inl ⟨"read", by simp [wsOnRead, h, hcl, hp]⟩
      | some j =>
        cases hv : JsonRpc.verify j <;>
          exact Or.inl ⟨"read", by simp [wsOnRead, h, hcl, hp, hv]⟩
  · intro parse buf hp
    exact Or.inr (Or.inl ⟨(JsonRpc.gen_err (-1)).dump, by simp [wsOnRead, hp]⟩)
  · intro parse buf j hp hv
    exact Or.inr (Or.inl ⟨(JsonRpc.gen_err (-1)).dump, by simp [wsOnRead, hp, hv]⟩)
  · intro buf ec h
    exact Or.inl ⟨"write", by simp [wsOnWrite, h]⟩
  · intro ec h
    exact Or.inl ⟨"accept", by simp [wsListenerOnAccept, h]⟩
  · intro a b c d h
    by_cases ha : a = ECode.ok
    · by_cases hb : b = ECode.ok
      · by_cases hc : c = ECode.ok
        · by_cases hd : d = ECode.ok
          · subst ha; subst hb; subst hc; subst hd
            rcases h with h | h | h | h <;> exact absurd rfl h
          · exact Or.inl ⟨"listen", by simp [wsListenerInit, ha, hb, hc, hd]⟩
        · exact Or.inl ⟨"bind", by simp [wsListenerInit, ha, hb, hc]⟩
      · exact Or.inl ⟨"set_option", by simp [wsListenerInit, ha, hb]⟩
    · exact Or.inl ⟨"open", by simp [wsListenerInit, ha]⟩

/-- Claim C2 witness: a write error (`err 32`) is reported to the sink. -/
theorem C2_witness : sinkOrResponse (wsOnWrite "x" (ECode.err 32)).2 :=
  C2_errors_reported_or_answered.2.2.2.2.1 "x" (ECode.err 32) (by decide)

/-- Claim C3: for every text frame whose payload fails to parse as JSON,
`WsSession::on_read` stages exactly one reply, the dump of `gen_err (-1)`
(whose error code is -1), and issues exactly one asynchronous write and no
close; and `WsSession::on_write`, once that write completes successfully,
clears the buffer and issues the next read. -/
theorem C3_parse_error_replies_and_resumes (parse : String → Option Json)
    (buf : String) (hp : parse buf = none) :
    (wsOnRead parse buf ECode.ok true).2 =
      [Act.textMode, Act.asyncWrite (JsonRpc.gen_err (-1)).dump] ∧
    errCode (JsonRpc.gen_err (-1)) = some (-1) ∧
    (∀ b : String, wsOnWrite b ECode.ok = ("", [Act.asyncRead])) := by
  refine ⟨by simp [wsOnRead, hp], by rfl, fun b => by simp [wsOnWrite]⟩

/-- Claim C3 witness: the payload "not json" with a parser that rejects
everything. -/
theorem C3_witness :
    (wsOnRead (fun _ => none) "not json" ECode.ok true).2 =
      [Act.textMode, Act.asyncWrite (JsonRpc.gen_err (-1)).dump] ∧
    errCode (JsonRpc.gen_err (-1)) = some (-1) ∧
    (∀ b : String, wsOnWrite b ECode.ok = ("", [Act.asyncRead])) :=
  C3_parse_error_replies_and_resumes (fun _ => none) "not json" rfl

/-- Claim C4: for every text frame whose payload parses as JSON but whose
envelope fails verification, `WsSession::on_read` stages one error reply
built with the generic validation-error code (`gen_err (-1)`, error code -1)
and issues a write and no close; the session stays open: the completed
write leads to the next read. -/
theorem C4_shape_violation_replies_and_stays_open
    (parse : String → Option Json) (buf : String) (j : Json)
    (hp : parse buf = some j) (hv : JsonRpc.verify j = false) :
    (wsOnRead parse buf ECode.ok true).2 =
      [Act.textMode, Act.logLine "verify..", Act.logLine "ERR",
       Act.asyncWrite (JsonRpc.gen_err (-1)).dump] ∧
    errCode (JsonRpc.gen_err (-1)) = some (-1) ∧
    (∀ b : String, wsOnWrite b ECode.ok = ("", [Act.asyncRead])) := by
  refine ⟨by simp [wsOnRead, hp, hv], by rfl, fun b => by simp [wsOnWrite]⟩

/-- Claim C4 witness: a JSON object with no `method` field fails
verification and gets the validation-error reply. -/
theorem C4_witness :
    (wsOnRead (fun _ => some (Json.obj [("x", Json.num 1)])) "\x7b\"x\":1\x7d"
        ECode.ok true).2 =
      [Act.textMode, Act.logLine "verify..", Act.logLine "ERR",
       Act.asyncWrite (JsonRpc.gen_err (-1)).dump] ∧
    errCode (JsonRpc.gen_err (-1)) = some (-1) ∧
    (∀ b : String, wsOnWrite b ECode.ok = ("", [Act.asyncRead])) :=
  C4_shape_violation_replies_and_stays_open
    (fun _ => some (Json.obj [("x", Json.num 1)])) "\x7b\"x\":1\x7d"
    (Json.obj [("x", Json.num 1)]) rfl rfl

/-- Claim C5: for every text frame whose payload parses as JSON and passes
verification, `WsSession::on_read` stages the fixed placeholder reply
`gen_err 999` (error code 999) — independent of the request's method, so
never a dispatched method result — and issues exactly one write. -/
theorem C5_verified_gets_placeholder (parse : String → Option Json)
    (buf : String) (j : Json) (hp : parse buf = some j)
    (hv : JsonRpc.verify j = true) :
    (wsOnRead parse buf ECode.ok true).2 =
      [Act.textMode, Act.logLine "verify..",
       Act.asyncWrite (JsonRpc.gen_err 999).dump] ∧
    errCode (JsonRpc.gen_err 999) = some 999 := by
  refine ⟨by simp [wsOnRead, hp, hv], by rfl⟩

/-- Claim C5 witness: the request with method "ping" and id 1 passes
verification and gets the placeholder code-999 reply. -/
theorem C5_witness :
    (wsOnRead (fun _ => some (Json.obj [("method", Json.str "ping"),
        ("id", Json.num 1)])) "\x7b\"method\":\"ping\",\"id\":1\x7d"
        ECode.ok true).2 =
      [Act.textMode, Act.logLine "verify..",
       Act.asyncWrite (JsonRpc.gen_err 999).dump] ∧
    errCode (JsonRpc.gen_err 999) = some 999 :=
  C5_verified_gets_placeholder
    (fun _ => some (Json.obj [("method", Json.str "ping"), ("id", Json.num 1)]))
    "\x7b\"method\":\"ping\",\"id\":1\x7d"
    (Json.obj [("method", Json.str "ping"), ("id", Json.num 1)]) rfl rfl

/-- Claim C6: for every successfully read non-text frame, `WsSession::on_read`
performs exactly one action — an asynchronous close with normal-closure code
1000 — leaving the buffer untouched: no JSON-RPC reply is staged and no
further read or write is issued, so the session's loop ends. -/
theorem C6_nontext_closes_1000 (parse : String → Option Json) (buf : String) :
    wsOnRead parse buf ECode.ok false = (buf, [Act.asyncClose 1000]) ∧
    issuedOps (wsOnRead parse buf ECode.ok false).2 = [AsyncOp.close 1000] := by
  refine ⟨by simp [wsOnRead], ?_⟩
  simp [wsOnRead, issuedOps]

/-- Claim C7: in every session state reachable from the post-`run()` initial
state, at most one asynchronous operation is in flight, so a read and a
write are never in flight simultaneously and no second read can be issued
before the previous write's completion handler has run. -/
theorem C7_strictly_sequential (parse : String → Option Json) (s : Sess)
    (h : SessReachable parse s) :
    s.inflight.length ≤ 1 ∧
    (∀ p, ¬(AsyncOp.read ∈ s.inflight ∧ AsyncOp.write p ∈ s.inflight)) := by
  obtain ⟨hlen, -, -⟩ := sessInv_reachable parse s h
  refine ⟨hlen, fun p hc => ?_⟩
  obtain ⟨hr, hw⟩ := hc
  rw [eq_singleton_of_len_le_one hr hlen] at hw
  simp at hw

/-- Claim C7 witness: the initial state, reached by the empty trace. -/
theorem C7_witness :
    sessInit.inflight.length ≤ 1 ∧
    (∀ p, ¬(AsyncOp.read ∈ sessInit.inflight ∧
            AsyncOp.write p ∈ sessInit.inflight)) :=
  C7_strictly_sequential (fun _ => none) sessInit Relation.ReflTransGen.refl

/-- Claim C8 counterexample: when the accept completion carries the error of
an invalid listening socket (`err 9`, EBADF), `WsListener::on_accept` still
re-arms `async_accept` — `do_accept()` is called unconditionally, so the
accept loop never terminates from within the handler, contrary to the
claim's exception clause. -/
theorem C8_invalid_socket_still_rearms :
    Act.asyncAccept ∈ wsListenerOnAccept (ECode.err 9) ∧
    wsListenerOnAccept (ECode.err 9) =
      [Act.report "accept", Act.asyncAccept] := by
  refine ⟨?_, by rfl⟩
  simp [wsListenerOnAccept]

/-- Claim C8 as amended: for every accept completion carrying an error,
`WsListener::on_accept` reports the error and unconditionally re-arms
acceptance of the next connection; the accept loop is never terminated from
within the handler, not even for an invalid listening socket. -/
theorem C8_accept_error_reports_and_rearms (ec : ECode)
    (h : ec ≠ ECode.ok) :
    wsListenerOnAccept ec = [Act.report "accept", Act.asyncAccept] := by
  simp [wsListenerOnAccept, h]

/-- Claim C8 witness: a transient accept error (`err 24`, EMFILE). -/
theorem C8_witness :
    wsListenerOnAccept (ECode.err 24) =
      [Act.report "accept", Act.asyncAccept] :=
  C8_accept_error_reports_and_rearms (ECode.err 24) (by decide)

/-- Claim C9: the reply staged for a payload that fails JSON parsing equals
the reply staged for a payload that parses but fails verification — both are
the dump of `gen_err (-1)` — so a client cannot distinguish the two failure
classes by error code. -/
theorem C9_parse_and_verify_error_replies_equal
    (p1 p2 : String → Option Json) (b1 b2 : String) (j : Json)
    (h1 : p1 b1 = none) (h2 : p2 b2 = some j)
    (hv : JsonRpc.verify j = false) :
    (wsOnRead p1 b1 ECode.ok true).1 = (wsOnRead p2 b2 ECode.ok true).1 ∧
    (wsOnRead p1 b1 ECode.ok true).1 = (JsonRpc.gen_err (-1)).dump ∧
    errCode (JsonRpc.gen_err (-1)) = some (-1) := by
  refine ⟨?_, by simp [wsOnRead, h1], by rfl⟩
  simp [wsOnRead, h1, h2, hv]

/-- Claim C9 witness: the non-JSON payload "not json" and the JSON payload
lacking a method field stage the identical reply. -/
theorem C9_witness :
    (wsOnRead (fun _ => none) "not json" ECode.ok true).1 =
      (wsOnRead (fun _ => some (Json.obj [("x", Json.num 1)]))
        "\x7b\"x\":1\x7d" ECode.ok true).1 ∧
    (wsOnRead (fun _ => none) "not json" ECode.ok true).1 =
      (JsonRpc.gen_err (-1)).dump ∧
    errCode (JsonRpc.gen_err (-1)) = some (-1) :=
  C9_parse_and_verify_error_replies_equal (fun _ => none)
    (fun _ => some (Json.obj [("x", Json.num 1)])) "not json" "\x7b\"x\":1\x7d"
    (Json.obj [("x", Json.num 1)]) rfl rfl rfl

/-- Claim C10: the session's single buffer is empty in every reachable state
in which a read is in flight (the post-handshake first read and the read
re-issued after each completed write), and while a write is in flight the
buffer holds exactly the staged reply, which the completed write then
consumes. -/
theorem C10_buffer_empty_when_reading (parse : String → Option Json)
    (s : Sess) (h : SessReachable parse s) :
    (AsyncOp.read ∈ s.inflight → s.buffer = "") ∧
    (∀ p, AsyncOp.write p ∈ s.inflight → s.buffer = p) := by
  obtain ⟨-, hread, hwrite⟩ := sessInv_reachable parse s h
  exact ⟨fun hr => hread (Or.inl hr), hwrite⟩

/-- Claim C10 witness: the initial state, reached by the empty trace. -/
theorem C10_witness :
    (AsyncOp.read ∈ sessInit.inflight → sessInit.buffer = "") ∧
    (∀ p, AsyncOp.write p ∈ sessInit.inflight → sessInit.buffer = p) :=
  C10_buffer_empty_when_reading (fun _ => none) sessInit
    Relation.ReflTransGen.refl
